import Mathlib

/-!
Shallow embedding of the three `SensorNode` simulation variants
(`OmnisentAI_Seq.cpp`, `OmnisentAI_MultiThread.cpp`, `OmnisentAI_OpenMP.cpp`).

The C library `std::rand()` is modelled as an infinite stream of
non-negative draws `r : Nat → Nat` together with an index `k` counting how
many draws have been consumed so far; each call to `rand()` reads `r k` and
advances `k`.  `std::time(nullptr)` is an opaque timestamp parameter `ts`.
Console output (`log`, `std::cout`) is collected as a list of strings.
Machine integers stay well inside 32-bit range here (`2 * range = 2^24`),
so `Int` with no wrap-around models the C `int` arithmetic faithfully.
-/

set_option autoImplicit false

/-- The `SensorNode` class fields (private data members). -/
structure SensorNode where
  id : String
  sample_rate : Nat
  bit_depth : Nat
  duration : Nat
  sleep_interval : Nat
deriving DecidableEq, Repr

/-- Constructor `SensorNode(node_id)`: initializer list
`id(node_id), sample_rate(400000), bit_depth(24), duration(1), sleep_interval(3600)`. -/
def SensorNode.mkDefault (node_id : String) : SensorNode :=
  { id := node_id, sample_rate := 400000, bit_depth := 24, duration := 1,
    sleep_interval := 3600 }

/-- `int range = (1 << (bit_depth - 1));` -/
def SensorNode.range (node : SensorNode) : Nat :=
  2 ^ (node.bit_depth - 1)

namespace Seq

/-- One generated sample: `(std::rand() % (2 * range)) - range`, where
`rv` is the (non-negative) value returned by `std::rand()`. -/
def sampleVal (node : SensorNode) (rv : Nat) : Int :=
  ((rv % (2 * node.range) : Nat) : Int) - (node.range : Int)

/-- `generateAudioData` of the sequential variant: fills a vector of
`sample_rate * duration` entries, entry `i` consuming the `i`-th draw
`r (k + i)` of the random stream. -/
def generateAudioData (node : SensorNode) (r : Nat → Nat) (k : Nat) : List Int :=
  (List.range (node.sample_rate * node.duration)).map
    (fun i => sampleVal node (r (k + i)))

/-- `compressData`: `for (size_t i = 0; i < data.size(); i += 4)
compressed.push_back(data[i]);`.  One equation per loop iteration: the
iteration reads `data[i]` and the stride `i += 4` skips the next three
elements (or fewer, at the end of the vector). -/
def compressData : List Int → List Int
  | [] => []
  | [x] => [x]
  | [x, _] => [x]
  | [x, _, _] => [x]
  | x :: _ :: _ :: _ :: rest => x :: compressData rest

/-- The loop building the `"audio_data"` part of the payload:
`for (i = 0; i < min(100, data.size()); ++i) { if (i > 0) payload << ", ";
payload << data[i]; }`. -/
def audioDataLoop (data : List Int) : String :=
  (List.range (min 100 data.length)).foldl
    (fun acc i => (if 0 < i then acc ++ ", " else acc) ++ toString (data.getD i 0)) ""

/-- The list of samples appended to the payload by that loop, in the order
they are appended. -/
def payloadSamples (data : List Int) : List Int :=
  (List.range (min 100 data.length)).map (fun i => data.getD i 0)

/-- The full JSON payload string built by `sendToCloud` (sequential variant). -/
def buildPayload (node : SensorNode) (ts : Nat) (data : List Int) : String :=
  "\x7b \"sensor_id\": \"" ++ node.id ++ "\", \"timestamp\": " ++ toString ts
    ++ ", \"audio_data\": [" ++ audioDataLoop data ++ "] \x7d"

/-- Result of one `sendToCloud` call: the payload it built, the line it
printed to `std::cout` (if any), its console log lines, and the returned
`success` flag. -/
structure SendResult where
  payload : String
  printed : Option String
  logs : List String
  success : Bool
deriving DecidableEq, Repr

/-- `sendToCloud` (sequential variant): builds the payload, draws one random
value for `bool success = (std::rand() % 10) < 9;`, prints the first 120
characters of the payload on success, and returns `success`.  Also returns
the advanced random-stream index. -/
def sendToCloud (node : SensorNode) (ts : Nat) (r : Nat → Nat) (k : Nat)
    (data : List Int) : SendResult × Nat :=
  let payload := buildPayload node ts data
  let success : Bool := decide (r k % 10 < 9)
  ({ payload := payload
     printed := if success then some (payload.take 120 ++ " ...") else none
     logs := ["Transmit: Preparing payload..."] ++
       (if success then
         ["Transmit: Sending data to cloud...", payload.take 120 ++ " ..."]
        else ["Transmit: Failed to send data."])
     success := success }, k + 1)

/-- Result of one `runCycle` call. -/
structure CycleResult where
  audio : List Int
  compressed : List Int
  send : SendResult
  logs : List String
deriving DecidableEq, Repr

/-- `runCycle` (sequential variant): generate, compress, send, log an extra
error line when the send failed, then sleep.  Returns the cycle's data and
console output together with the advanced random-stream index. -/
def runCycle (node : SensorNode) (ts : Nat) (r : Nat → Nat) (k : Nat) :
    CycleResult × Nat :=
  let audio := generateAudioData node r k
  let k1 := k + node.sample_rate * node.duration
  let compressed := compressData audio
  let sres := sendToCloud node ts r k1 compressed
  ({ audio := audio
     compressed := compressed
     send := sres.1
     logs := ["---- Sensor Cycle Start ----",
              "Wake: Generating dummy audio data...",
              "Processing: Compressing audio data..."] ++
       sres.1.logs ++
       (if sres.1.success then [] else ["Error: Transmission failed. Logging for retry."]) ++
       ["Sleep: Entering sleep mode...\n"] }, sres.2)

end Seq

namespace MT

/-- `generateAudioData(std::vector<int>& data)` of the thread variant: fills
the supplied buffer in place, entry `i` consuming draw `r (k + i)`. -/
def generateAudioData (node : SensorNode) (r : Nat → Nat) (k : Nat)
    (buf : List Int) : List Int :=
  (List.range buf.length).map (fun i => Seq.sampleVal node (r (k + i)))

/-- `compressData(const std::vector<int>& data, std::vector<int>& compressed)`
of the thread variant: appends every 4th sample of `data` to `compressed`
(same loop as the sequential variant, pushing onto the caller's buffer). -/
def compressData : List Int → List Int → List Int
  | [], acc => acc
  | [x], acc => acc ++ [x]
  | [x, _], acc => acc ++ [x]
  | [x, _, _], acc => acc ++ [x]
  | x :: _ :: _ :: _ :: rest, acc => compressData rest (acc ++ [x])

/-- The buffer `std::vector<int> audio(sample_rate * duration)` as it is
value-initialized in `runCycle` before the worker threads start. -/
def audioInit (node : SensorNode) : List Int :=
  List.replicate (node.sample_rate * node.duration) 0

/-- The audio buffer as thread `t2` can observe it while thread `t1` is
still running: the first `w` writes of the generator have landed, the
remaining entries still hold their zero initialization. -/
def audioAfterWrites (node : SensorNode) (r : Nat → Nat) (k : Nat)
    (w : Nat) : List Int :=
  (List.range (node.sample_rate * node.duration)).map
    (fun i => if i < w then Seq.sampleVal node (r (k + i)) else 0)

/-- A schedule for the racy fork in `runCycle`: entry `j` records how many
generator writes had completed when the compression thread performed its
`j`-th read (of `data[4*j]`).  Valid schedules are monotone (writes happen
in index order) and bounded by the buffer length, with one entry per read. -/
def scheduleValid (node : SensorNode) (ws : List Nat) : Prop :=
  ws.length = (node.sample_rate * node.duration + 3) / 4 ∧
  (∀ i ∈ List.range (ws.length - 1), ws.getD i 0 ≤ ws.getD (i + 1) 0) ∧
  ∀ w ∈ ws, w ≤ node.sample_rate * node.duration

instance (node : SensorNode) (ws : List Nat) :
    Decidable (scheduleValid node ws) :=
  inferInstanceAs (Decidable
    (ws.length = (node.sample_rate * node.duration + 3) / 4 ∧
     (∀ i ∈ List.range (ws.length - 1), ws.getD i 0 ≤ ws.getD (i + 1) 0) ∧
     ∀ w ∈ ws, w ≤ node.sample_rate * node.duration))

/-- The contents of `compressed` after both threads of `runCycle` have been
joined, under schedule `ws`: the `j`-th appended element is the value of
`audio[4*j]` at the moment of the compression thread's `j`-th read. -/
def threadCompressed (node : SensorNode) (r : Nat → Nat) (k : Nat)
    (ws : List Nat) : List Int :=
  (List.range ((node.sample_rate * node.duration + 3) / 4)).map
    (fun j => (audioAfterWrites node r k (ws.getD j 0)).getD (4 * j) 0)

/-- `bool success = (std::rand() % 10) < 9;` in the thread variant's
`sendToCloud` (identical to the sequential variant's draw). -/
def sendSuccess (r : Nat → Nat) (k : Nat) : Bool :=
  decide (r k % 10 < 9)

end MT

namespace OMP

/-- A schedule parameter for the OpenMP variant's `parallel for` loops:
`p` pairs the `m` loop iterations with the `m` serialized events (stream
draws, or critical-section entries) they map to.  The pragma leaves this
pairing to the scheduler; a valid pairing is a bijection, i.e. `p` maps
`List.range m` onto a permutation of itself. -/
def permutesRange (m : Nat) (p : Nat → Nat) : Prop :=
  ((List.range m).map p).Perm (List.range m)

instance (m : Nat) (p : Nat → Nat) : Decidable (permutesRange m p) :=
  inferInstanceAs (Decidable (((List.range m).map p).Perm (List.range m)))

/-- `generateAudioData` of the OpenMP variant under draw assignment `p`:
the `#pragma omp parallel for` fill loop's iteration `i` stores
`(rand() % (2*range)) - range` into `data[i]`, its `rand()` call returning
the `p i`-th of the `n` draws the loop consumes; which draw that is
(beyond the bijectivity of a valid `p`) is schedule-dependent. -/
def generateAudioDataSched (node : SensorNode) (r : Nat → Nat) (k : Nat)
    (p : Nat → Nat) : List Int :=
  (List.range (node.sample_rate * node.duration)).map
    (fun i => Seq.sampleVal node (r (k + p i)))

/-- The OpenMP fill loop under the in-order schedule (iteration `i`
consumes draw `i`); used for schedule-invariant facts such as the output
length. -/
def generateAudioData (node : SensorNode) (r : Nat → Nat) (k : Nat) : List Int :=
  generateAudioDataSched node r k (fun i => i)

/-- `compressData` of the OpenMP variant under append order `p`: the loop
`for (i = 0; i < size; i += 4)` runs its iterations in parallel and the
`critical` region serializes, but does not order, the `push_back`s; the
`j`-th append overall comes from iteration `p j` and pushes `data[4*p j]`. -/
def compressDataOrd (data : List Int) (p : Nat → Nat) : List Int :=
  (List.range ((data.length + 3) / 4)).map (fun j => data.getD (4 * p j) 0)

/-- The payload loop of the OpenMP variant's `sendToCloud`:
`payload << data[i]; if (i < 99 && i < data.size() - 1) payload << ", ";`. -/
def audioDataLoop (data : List Int) : String :=
  (List.range (min 100 data.length)).foldl
    (fun acc i => acc ++ toString (data.getD i 0) ++
      (if i < 99 ∧ i < data.length - 1 then ", " else "")) ""

/-- `bool success = (std::rand() % 10) < 9;` in the OpenMP variant's
`sendToCloud`. -/
def sendSuccess (r : Nat → Nat) (k : Nat) : Bool :=
  decide (r k % 10 < 9)

end OMP

/-! Helper lemmas about the embedded functions. -/

theorem getD_map_range {α : Type} (f : Nat → α) (n i : Nat) (d : α) :
    (((List.range n).map f).getD i d) = if i < n then f i else d := by
  by_cases h : i < n
  · rw [List.getD_eq_getElem?_getD]
    simp [List.getElem?_map, List.getElem?_range, h]
  · rw [List.getD_eq_getElem?_getD]
    rw [List.getElem?_eq_none (by simpa using Nat.le_of_not_lt h)]
    simp [h]

theorem compressData_length :
    ∀ l : List Int, (Seq.compressData l).length = (l.length + 3) / 4
  | [] => rfl
  | [_] => by simp [Seq.compressData]
  | [_, _] => by simp [Seq.compressData]
  | [_, _, _] => by simp [Seq.compressData]
  | _ :: _ :: _ :: _ :: rest => by
    simp only [Seq.compressData, List.length_cons, compressData_length rest]
    omega

theorem compressData_getD :
    ∀ (l : List Int) (j : Nat), j < (Seq.compressData l).length →
      (Seq.compressData l).getD j 0 = l.getD (4 * j) 0
  | [], j, hj => by simp [Seq.compressData] at hj
  | [x], j, hj => by
    simp [Seq.compressData, Nat.lt_one_iff] at hj
    subst hj; rfl
  | [x, a], j, hj => by
    simp [Seq.compressData, Nat.lt_one_iff] at hj
    subst hj; rfl
  | [x, a, b], j, hj => by
    simp [Seq.compressData, Nat.lt_one_iff] at hj
    subst hj; rfl
  | x :: a :: b :: c :: rest, j, hj => by
    match j with
    | 0 => rfl
    | j + 1 =>
      have hj' : j < (Seq.compressData rest).length := by
        simpa [Seq.compressData] using hj
      have ih := compressData_getD rest j hj'
      simp only [Seq.compressData, List.getD_cons_succ]
      rw [ih]
      have h4 : 4 * (j + 1) = 4 * j + 1 + 1 + 1 + 1 := by omega
      rw [h4]
      simp [List.getD_cons_succ]

theorem compressData_eq_map (l : List Int) :
    Seq.compressData l =
      (List.range ((l.length + 3) / 4)).map (fun j => l.getD (4 * j) 0) := by
  apply List.ext_getElem
  · simp [compressData_length]
  · intro j h1 h2
    have hj : j < (Seq.compressData l).length := h1
    have := compressData_getD l j hj
    rw [List.getD_eq_getElem _ _ hj] at this
    rw [this]
    rw [List.getElem_map, List.getElem_range]

/-- A small `SensorNode` used to instantiate universally quantified theorems
on concrete, quickly evaluable inputs. -/
def testNode : SensorNode :=
  { id := "sensor_001", sample_rate := 4, bit_depth := 24, duration := 1,
    sleep_interval := 3600 }

/-- Claim C1: `compressData` returns exactly the elements of `data` at
indices 0, 4, 8, ... (every 4th element starting from index 0), in their
original order, with no element encoded or transformed: the result is the
map `j ↦ data[4*j]` over all strides that fall inside `data`. -/
theorem compressData_takes_every_fourth (data : List Int) :
    Seq.compressData data =
      (List.range ((data.length + 3) / 4)).map (fun j => data.getD (4 * j) 0) :=
  compressData_eq_map data

/-- Claim C2: every value produced by `generateAudioData` lies in the
half-open interval `[-range, range)` with `range = 2^(bit_depth - 1)`, for
every position in the output and every non-negative random stream. -/
theorem generateAudioData_in_range (node : SensorNode) (r : Nat → Nat)
    (k : Nat) (x : Int) (hx : x ∈ Seq.generateAudioData node r k) :
    -((2 : Int) ^ (node.bit_depth - 1)) ≤ x ∧
      x < (2 : Int) ^ (node.bit_depth - 1) := by
  simp only [Seq.generateAudioData, List.mem_map, List.mem_range] at hx
  obtain ⟨i, _, rfl⟩ := hx
  unfold Seq.sampleVal SensorNode.range
  have hE : 0 < 2 ^ (node.bit_depth - 1) := Nat.pos_pow_of_pos _ (by omega)
  have hm : r (k + i) % (2 * 2 ^ (node.bit_depth - 1)) <
      2 * 2 ^ (node.bit_depth - 1) := Nat.mod_lt _ (by omega)
  have hcast : ((2 : Int) ^ (node.bit_depth - 1)) =
      ((2 ^ (node.bit_depth - 1) : Nat) : Int) := by push_cast; ring
  rw [hcast]
  omega

/-- Witness for C2 at a concrete node, stream and output element. -/
theorem generateAudioData_in_range_witness :
    ((-8388608 : Int) ∈ Seq.generateAudioData testNode (fun _ => 0) 0) ∧
    (-((2 : Int) ^ (testNode.bit_depth - 1)) ≤ -8388608 ∧
      (-8388608 : Int) < (2 : Int) ^ (testNode.bit_depth - 1)) := by
  have hmem : (-8388608 : Int) ∈ Seq.generateAudioData testNode (fun _ => 0) 0 := by
    decide
  exact ⟨hmem, generateAudioData_in_range testNode (fun _ => 0) 0 _ hmem⟩

/-- Claim C3: `compressData` maps an input of length `n` to an output of
length `⌈n/4⌉ = (n + 3) / 4`; in particular the output is empty exactly
when the input is. -/
theorem compressData_length_ceil (data : List Int) :
    (Seq.compressData data).length = (data.length + 3) / 4 ∧
    (Seq.compressData data = [] ↔ data = []) := by
  refine ⟨compressData_length data, ?_, ?_⟩
  · intro h
    have hl := compressData_length data
    rw [h] at hl
    simp only [List.length_nil] at hl
    have : data.length = 0 := by omega
    exact List.length_eq_zero.mp this
  · intro h
    subst h
    rfl

/-- Claim C8: `generateAudioData` always returns exactly
`sample_rate * duration` elements (400000 with the constructor's default
parameters), whatever the random stream; this holds for the sequential and
the (sequentialized) OpenMP variant alike. -/
theorem generateAudioData_length (node : SensorNode) (r : Nat → Nat)
    (k : Nat) (node_id : String) :
    (Seq.generateAudioData node r k).length = node.sample_rate * node.duration ∧
    (OMP.generateAudioData node r k).length = node.sample_rate * node.duration ∧
    (Seq.generateAudioData (SensorNode.mkDefault node_id) r k).length = 400000 := by
  refine ⟨?_, ?_, ?_⟩ <;>
    simp [Seq.generateAudioData, OMP.generateAudioData,
      OMP.generateAudioDataSched, SensorNode.mkDefault]

/-- Claim C10: the `success` flag returned by `sendToCloud` depends only on
the random-stream state at the moment of the call: two runs from the same
stream position agree, whatever the sensor ids, timestamps or data lists. -/
theorem sendToCloud_success_independent_of_data
    (node₁ node₂ : SensorNode) (ts₁ ts₂ : Nat) (data₁ data₂ : List Int)
    (r : Nat → Nat) (k : Nat) :
    (Seq.sendToCloud node₁ ts₁ r k data₁).1.success =
      (Seq.sendToCloud node₂ ts₂ r k data₂).1.success := by
  simp [Seq.sendToCloud]

theorem getD_take {α : Type} (l : List α) (n i : Nat) (d : α) :
    (l.take n).getD i d = if i < n then l.getD i d else d := by
  rw [List.getD_eq_getElem?_getD, List.getD_eq_getElem?_getD, List.getElem?_take]
  by_cases h : i < n <;> simp [h]

theorem payloadSamples_eq_take (data : List Int) :
    Seq.payloadSamples data = data.take 100 := by
  apply List.ext_getElem
  · simp [Seq.payloadSamples]
  · intro j h1 h2
    have hj : j < data.length := by
      simp only [Seq.payloadSamples, List.length_map, List.length_range] at h1
      omega
    simp only [Seq.payloadSamples, List.getElem_map, List.getElem_range,
      List.getElem_take]
    exact List.getD_eq_getElem data 0 hj

theorem audioDataLoop_take (data : List Int) :
    Seq.audioDataLoop data = Seq.audioDataLoop (data.take 100) := by
  unfold Seq.audioDataLoop
  have hlen : min 100 (data.take 100).length = min 100 data.length := by
    rw [List.length_take]; omega
  rw [hlen]
  apply List.foldl_ext
  intro acc i hi
  simp only [List.mem_range] at hi
  have h1 : (data.take 100).getD i 0 = data.getD i 0 := by
    rw [getD_take]; rw [if_pos (by omega)]
  rw [h1]

theorem ompAudioDataLoop_take (data : List Int) :
    OMP.audioDataLoop data = OMP.audioDataLoop (data.take 100) := by
  unfold OMP.audioDataLoop
  have hlen : min 100 (data.take 100).length = min 100 data.length := by
    rw [List.length_take]; omega
  rw [hlen]
  apply List.foldl_ext
  intro acc i hi
  simp only [List.mem_range] at hi
  have h1 : (data.take 100).getD i 0 = data.getD i 0 := by
    rw [getD_take]; rw [if_pos (by omega)]
  have h2 : (i < 99 ∧ i < (data.take 100).length - 1) ↔
      (i < 99 ∧ i < data.length - 1) := by
    rw [List.length_take]; omega
  rw [h1]
  by_cases hc : i < 99 ∧ i < data.length - 1
  · rw [if_pos hc, if_pos (h2.mpr hc)]
  · rw [if_neg hc, if_neg (fun h => hc (h2.mp h))]

/-- Claim C9: the JSON payload built by `sendToCloud` embeds exactly the
first `min(100, |data|)` elements of `data` in input order (the appended
sample list is `data.take 100`, and the payload string is unchanged by
discarding everything past index 99, in the sequential and the OpenMP
variant alike), and only a 120-character prefix of the payload is ever
printed. -/
theorem sendToCloud_payload_first_hundred (node : SensorNode) (ts : Nat)
    (data : List Int) (r : Nat → Nat) (k : Nat) :
    Seq.payloadSamples data = data.take 100 ∧
    Seq.buildPayload node ts data = Seq.buildPayload node ts (data.take 100) ∧
    OMP.audioDataLoop data = OMP.audioDataLoop (data.take 100) ∧
    (Seq.sendToCloud node ts r k data).1.printed =
      (if (Seq.sendToCloud node ts r k data).1.success then
        some ((Seq.buildPayload node ts data).take 120 ++ " ...") else none) := by
  refine ⟨payloadSamples_eq_take data, ?_, ompAudioDataLoop_take data, ?_⟩
  · unfold Seq.buildPayload
    rw [audioDataLoop_take data]
  · simp [Seq.sendToCloud]

/-- Claim C4: `sendToCloud` returns `true` exactly when the draw
`rand() % 10` is less than 9, and a failed send changes nothing in the rest
of `runCycle` but the console lines: the generated data, the compressed
data, the advanced random index (hence no retry and no extra draw) and the
final sleep step are identical in either case, and no error is propagated
beyond the returned record. -/
theorem sendToCloud_success_iff_and_failure_only_logs (node : SensorNode)
    (ts : Nat) (r : Nat → Nat) (k : Nat) :
    ((Seq.runCycle node ts r k).1.send.success = true ↔
      r (k + node.sample_rate * node.duration) % 10 < 9) ∧
    (Seq.runCycle node ts r k).2 = k + node.sample_rate * node.duration + 1 ∧
    (Seq.runCycle node ts r k).1.audio = Seq.generateAudioData node r k ∧
    (Seq.runCycle node ts r k).1.compressed =
      Seq.compressData (Seq.generateAudioData node r k) ∧
    (Seq.runCycle node ts r k).1.logs =
      ["---- Sensor Cycle Start ----",
       "Wake: Generating dummy audio data...",
       "Processing: Compressing audio data...",
       "Transmit: Preparing payload..."] ++
      (if (Seq.runCycle node ts r k).1.send.success then
        ["Transmit: Sending data to cloud...",
         (Seq.runCycle node ts r k).1.send.payload.take 120 ++ " ..."]
       else
        ["Transmit: Failed to send data.",
         "Error: Transmission failed. Logging for retry."]) ++
      ["Sleep: Entering sleep mode...\n"] := by
  by_cases hs : r (k + node.sample_rate * node.duration) % 10 < 9 <;>
    simp [Seq.runCycle, Seq.sendToCloud, hs]

theorem mtCompressData_append :
    ∀ data acc : List Int, MT.compressData data acc = acc ++ Seq.compressData data
  | [], acc => by simp [MT.compressData, Seq.compressData]
  | [x], acc => by simp [MT.compressData, Seq.compressData]
  | [x, a], acc => by simp [MT.compressData, Seq.compressData]
  | [x, a, b], acc => by simp [MT.compressData, Seq.compressData]
  | x :: a :: b :: c :: rest, acc => by
    simp only [MT.compressData, Seq.compressData]
    rw [mtCompressData_append rest (acc ++ [x])]
    simp

theorem ompGenSched_perm (node : SensorNode) (r : Nat → Nat) (k : Nat)
    (p : Nat → Nat)
    (h : OMP.permutesRange (node.sample_rate * node.duration) p) :
    (OMP.generateAudioDataSched node r k p).Perm
      (Seq.generateAudioData node r k) := by
  have h' : ((List.range (node.sample_rate * node.duration)).map p).Perm
      (List.range (node.sample_rate * node.duration)) := h
  have hm := h'.map (fun i => Seq.sampleVal node (r (k + i)))
  simpa [OMP.generateAudioDataSched, Seq.generateAudioData, List.map_map,
    Function.comp] using hm

theorem ompCompressOrd_perm (data : List Int) (p : Nat → Nat)
    (h : OMP.permutesRange ((data.length + 3) / 4) p) :
    (OMP.compressDataOrd data p).Perm (Seq.compressData data) := by
  have h' : ((List.range ((data.length + 3) / 4)).map p).Perm
      (List.range ((data.length + 3) / 4)) := h
  have hm := h'.map (fun j => data.getD (4 * j) 0)
  rw [compressData_eq_map]
  simpa [OMP.compressDataOrd, List.map_map, Function.comp] using hm

theorem getD_replicate_lt (m n j : Nat) (h : j < m) :
    (List.replicate m n).getD j 0 = n := by
  rw [List.getD_eq_getElem?_getD, List.getElem?_replicate]
  simp [h]

theorem fullScheduleValid (node : SensorNode) :
    MT.scheduleValid node
      (List.replicate ((node.sample_rate * node.duration + 3) / 4)
        (node.sample_rate * node.duration)) := by
  refine ⟨List.length_replicate _ _, ?_, ?_⟩
  · intro i hi
    simp only [List.length_replicate, List.mem_range] at hi
    rw [getD_replicate_lt _ _ _ (by omega), getD_replicate_lt _ _ _ (by omega)]
  · intro w hw
    exact (List.eq_of_mem_replicate hw).le

theorem threadCompressed_full (node : SensorNode) (r : Nat → Nat) (k : Nat) :
    MT.threadCompressed node r k
      (List.replicate ((node.sample_rate * node.duration + 3) / 4)
        (node.sample_rate * node.duration)) =
    Seq.compressData (Seq.generateAudioData node r k) := by
  rw [compressData_eq_map]
  have hlen : (Seq.generateAudioData node r k).length =
      node.sample_rate * node.duration := by
    simp [Seq.generateAudioData]
  rw [hlen]
  unfold MT.threadCompressed
  apply List.map_congr_left
  intro j hj
  simp only [List.mem_range] at hj
  rw [getD_replicate_lt _ _ _ hj]
  have h4j : 4 * j < node.sample_rate * node.duration := by omega
  unfold MT.audioAfterWrites Seq.generateAudioData
  rw [getD_map_range, getD_map_range]
  simp [h4j]

/-- Claim C5 (amended): given the same random stream and stream position,
the three variants' cycles agree on the transmission outcome; the thread
variant's fully written audio buffer and its (pragma-free, sequential)
compression loop agree with the sequential variant's, and its compressed
sequence agrees under the valid schedule in which the generator's writes
complete before the compression thread's reads; the OpenMP variant's
generation and compression agree with the sequential variant's under the
in-order schedules, and under every valid schedule they produce a
permutation of the sequential results. -/
theorem variants_equivalent_under_ordered_schedules (node : SensorNode)
    (r : Nat → Nat) (k ts : Nat) (data : List Int) :
    MT.generateAudioData node r k (MT.audioInit node) =
      Seq.generateAudioData node r k ∧
    MT.compressData data [] = Seq.compressData data ∧
    MT.scheduleValid node
      (List.replicate ((node.sample_rate * node.duration + 3) / 4)
        (node.sample_rate * node.duration)) ∧
    MT.threadCompressed node r k
      (List.replicate ((node.sample_rate * node.duration + 3) / 4)
        (node.sample_rate * node.duration)) =
      Seq.compressData (Seq.generateAudioData node r k) ∧
    OMP.permutesRange (node.sample_rate * node.duration) (fun i => i) ∧
    OMP.generateAudioDataSched node r k (fun i => i) =
      Seq.generateAudioData node r k ∧
    (∀ p : Nat → Nat,
      OMP.permutesRange (node.sample_rate * node.duration) p →
      (OMP.generateAudioDataSched node r k p).Perm
        (Seq.generateAudioData node r k)) ∧
    OMP.compressDataOrd data (fun j => j) = Seq.compressData data ∧
    (∀ p : Nat → Nat, OMP.permutesRange ((data.length + 3) / 4) p →
      (OMP.compressDataOrd data p).Perm (Seq.compressData data)) ∧
    MT.sendSuccess r k = (Seq.sendToCloud node ts r k data).1.success ∧
    OMP.sendSuccess r k = (Seq.sendToCloud node ts r k data).1.success := by
  refine ⟨?_, ?_, fullScheduleValid node, threadCompressed_full node r k,
    ?_, rfl, ompGenSched_perm node r k, ?_, ompCompressOrd_perm data,
    rfl, rfl⟩
  · unfold MT.generateAudioData MT.audioInit Seq.generateAudioData
    rw [List.length_replicate]
  · simpa using mtCompressData_append data []
  · show ((List.range (node.sample_rate * node.duration)).map
      (fun i => i)).Perm (List.range (node.sample_rate * node.duration))
    rw [List.map_id']
  · rw [compressData_eq_map]
    rfl

/-- Witness for the amended C5 at concrete inputs, discharging the
schedule hypotheses with the identity draw assignment and append order. -/
theorem variants_equivalent_witness :
    (OMP.generateAudioDataSched testNode (fun _ => 1) 0 (fun i => i)).Perm
      (Seq.generateAudioData testNode (fun _ => 1) 0) ∧
    (OMP.compressDataOrd [5, 6, 7, 8] (fun j => j)).Perm
      (Seq.compressData [5, 6, 7, 8]) := by
  have h := variants_equivalent_under_ordered_schedules testNode
    (fun _ => 1) 0 0 [5, 6, 7, 8]
  exact ⟨h.2.2.2.2.2.2.1 (fun i => i) (by decide),
    h.2.2.2.2.2.2.2.2.1 (fun j => j) (by decide)⟩

/-- Claim C5 counterexample: on a 4-sample node with the random stream
constantly 1, the valid schedule in which the compression thread's single
read happens before any generator write makes the thread variant's cycle
produce compressed data `[0]`, while the sequential variant's cycle on the
same stream produces `[-8388607]`: the racy fork in the thread variant's
`runCycle` does not preserve the compressed sequence. -/
theorem thread_variant_race_compressed_differs :
    MT.scheduleValid testNode [0] ∧
    MT.threadCompressed testNode (fun _ => 1) 0 [0] ≠
      Seq.compressData (Seq.generateAudioData testNode (fun _ => 1) 0) := by
  constructor
  · decide
  · decide

/-- The state a `SensorNode` object threads from one cycle to the next: its
five fields, plus the position in the global random stream (the C library's
`rand()` state), the only other mutable state the program carries. -/
structure NodeState where
  node : SensorNode
  randIdx : Nat
deriving DecidableEq, Repr

/-- `runCycle` in object-state-passing form: the body reads the fields and
advances the global random stream; the source contains no assignment to any
field, so the outgoing object state carries the fields through unchanged. -/
def runCycleS (st : NodeState) (ts : Nat) (r : Nat → Nat) :
    NodeState × Seq.CycleResult :=
  let res := Seq.runCycle st.node ts r st.randIdx
  ({ node := st.node, randIdx := res.2 }, res.1)

/-- `main`'s loop `for (int i = 0; i < 3; ++i) node.runCycle();`,
generalized to `m` iterations; `tss i` is the timestamp observed during
cycle `i`. -/
def mainCycles (tss r : Nat → Nat) : Nat → NodeState → NodeState × List Seq.CycleResult
  | 0, st => (st, [])
  | m + 1, st =>
    let step := runCycleS st (tss m) r
    let rest := mainCycles tss r m step.1
    (rest.1, step.2 :: rest.2)

theorem mainCycles_state (tss r : Nat → Nat) :
    ∀ (m : Nat) (st : NodeState),
      (mainCycles tss r m st).1 =
        { node := st.node
          randIdx := st.randIdx +
            m * (st.node.sample_rate * st.node.duration + 1) }
  | 0, st => by simp [mainCycles]
  | m + 1, st => by
    simp only [mainCycles]
    rw [mainCycles_state tss r m]
    simp [runCycleS, Seq.runCycle, Seq.sendToCloud, NodeState.mk.injEq]
    ring

/-- Claim C6: across every `runCycle` call, and hence across all `m` cycles
run by `main`'s loop (3 in the program), every `SensorNode` field — `id`,
`sample_rate`, `bit_depth`, `duration`, `sleep_interval` — is unchanged,
and the only state threaded from one cycle to the next besides the fields
is the global random stream position, which advances by the fixed amount
`sample_rate * duration + 1` per cycle. -/
theorem runCycle_preserves_node_fields (st : NodeState) (ts m : Nat)
    (tss r : Nat → Nat) :
    (runCycleS st ts r).1.node = st.node ∧
    (mainCycles tss r m st).1.node = st.node ∧
    (mainCycles tss r m st).1.node.id = st.node.id ∧
    (mainCycles tss r m st).1.node.sample_rate = st.node.sample_rate ∧
    (mainCycles tss r m st).1.node.bit_depth = st.node.bit_depth ∧
    (mainCycles tss r m st).1.node.duration = st.node.duration ∧
    (mainCycles tss r m st).1.node.sleep_interval = st.node.sleep_interval ∧
    (mainCycles tss r m st).1.randIdx =
      st.randIdx + m * (st.node.sample_rate * st.node.duration + 1) := by
  have h := mainCycles_state tss r m st
  refine ⟨rfl, ?_, ?_, ?_, ?_, ?_, ?_, ?_⟩ <;> rw [h]
